import Mathlib

/-!
Shallow embedding of the usage-tracking / quota-enforcement core of
`src/generate-commit.js` (the `commit-sensei` CLI).

The embedded code is:
  - `loadUsage`            (generate-commit.js, lines 55-65)
  - `saveUsage`            (generate-commit.js, lines 67-73)
  - `resetUsageIfNeeded`   (generate-commit.js, lines 75-83; the record
                            transformation at lines 78-81 is the pure part,
                            the unconditional save at line 82 is performed
                            by the caller model `mainRun`)
  - the inline admission check of `main` (lines 115-118), called
    `checkAdmission` after the spec
  - the inline success recording of `main` (lines 184-186), called
    `recordSuccess` after the spec
  - the control flow of `main` (lines 111-213) around these, as `mainRun`

JavaScript numbers that may be non-numeric are modelled explicitly: the
`tokens` field is `Option Int`, where `none` stands for a non-numeric
value (`NaN` after `x += undefined`, serialized by `JSON.stringify` as
`null`).  `requests` and `timestamp` are always plain numbers on every
path of the source, so they are plain `Int`.
-/

/-- The persisted usage record `{requests, tokens, timestamp}` of
`.genai-usage.json`.  `tokens` is `Option Int`: `none` models a
non-numeric JavaScript value (`NaN` / JSON `null`). -/
structure UsageRecord where
  requests : Int
  tokens : Option Int
  timestamp : Int
deriving DecidableEq, Repr

/-- A JSON field value as stored in the usage file: a number, or `null`
(what `JSON.stringify` emits for `NaN`). -/
inductive JsonVal where
  | num (n : Int)
  | null
deriving DecidableEq, Repr

/-- State of the usage file `.genai-usage.json`:
absent, present but not parseable as JSON, or a parsed JSON object
(a list of fields). -/
inductive FileState where
  | absent
  | corrupt
  | stored (fields : List (String × JsonVal))
deriving DecidableEq, Repr

/-- `RATE_LIMITS.RPD` (generate-commit.js, line 18). -/
def RATE_LIMITS_RPD : Int := 1500

/-- `oneDay = 24 * 60 * 60 * 1000` (generate-commit.js, line 77). -/
def oneDay : Int := 24 * 60 * 60 * 1000

/-- `JSON.stringify` of the usage record (as written by `saveUsage`,
line 69): all three fields, a numeric `tokens` as a number and a
non-numeric one as `null`. -/
def serializeUsage (u : UsageRecord) : List (String × JsonVal) :=
  [("requests", JsonVal.num u.requests),
   ("tokens", match u.tokens with | some n => JsonVal.num n | none => JsonVal.null),
   ("timestamp", JsonVal.num u.timestamp)]

/-- Reading the `tokens` field back: a number parses to that number,
`null` parses to the non-numeric marker. -/
def tokensOfJson : JsonVal → Option Int
  | JsonVal.num n => some n
  | JsonVal.null => none

/-- `JSON.parse` of the usage file restricted to the record shape that
`saveUsage` writes (line 61).  An object missing one of the three fields,
or with a non-numeric `requests`/`timestamp`, is not produced by any
`saveUsage` and is mapped to `none` like unparseable content. -/
def parseUsage (fields : List (String × JsonVal)) : Option UsageRecord :=
  match fields.lookup "requests", fields.lookup "tokens", fields.lookup "timestamp" with
  | some (JsonVal.num r), some tv, some (JsonVal.num ts) =>
      some { requests := r, tokens := tokensOfJson tv, timestamp := ts }
  | _, _, _ => none

/-- `loadUsage` (generate-commit.js, lines 55-65).  Returns the loaded
record paired with the (unchanged) file state: the source performs no
write.  On a missing file it returns the fresh record
`{requests: 0, tokens: 0, timestamp: now}` (line 58).  On unparseable
content, `JSON.parse` throws, the `catch` at line 62 logs the error and
the function returns `undefined`, modelled as `none`. -/
def loadUsage (fs : FileState) (now : Int) : Option UsageRecord × FileState :=
  match fs with
  | FileState.absent => (some { requests := 0, tokens := some 0, timestamp := now }, fs)
  | FileState.corrupt => (none, fs)
  | FileState.stored fields => (parseUsage fields, fs)

/-- `saveUsage` (generate-commit.js, lines 67-73).  `writable` says
whether the underlying write succeeds.  On failure the `catch` at
line 70 logs the error and swallows it, so the function always returns
normally: the result is the new file state together with a flag saying
whether the error branch ran. -/
def saveUsage (u : UsageRecord) (writable : Bool) (fs : FileState) : FileState × Bool :=
  if writable then (FileState.stored (serializeUsage u), false) else (fs, true)

/-- The record transformation of `resetUsageIfNeeded`
(generate-commit.js, lines 78-81): if `now - usage.timestamp > oneDay`,
set `requests` to 0 and `timestamp` to `now`; otherwise leave the record
untouched.  `tokens` is never written. -/
def resetUsageIfNeeded (u : UsageRecord) (now : Int) : UsageRecord :=
  if now - u.timestamp > oneDay then
    { u with requests := 0, timestamp := now }
  else
    u

/-- Reason attached to a denied admission.  The source prints
"Rate limit exceeded: 1,500 requests per day" (line 116); the only
denial the code can produce is the daily request limit. -/
inductive DenialReason where
  | dailyRequestLimitExceeded
deriving DecidableEq, Repr

/-- Result of the admission check. -/
inductive Admission where
  | allowed
  | denied (reason : DenialReason)
deriving DecidableEq, Repr

/-- The admission check inlined in `main` (generate-commit.js,
lines 115-118): `usage.requests >= RATE_LIMITS.RPD` denies, anything
below allows.  No other field is read. -/
def checkAdmission (u : UsageRecord) : Admission :=
  if u.requests ≥ RATE_LIMITS_RPD then
    Admission.denied DenialReason.dailyRequestLimitExceeded
  else
    Admission.allowed

/-- JavaScript addition where either operand may be non-numeric:
`x + undefined` and `NaN + y` are `NaN` (`none`). -/
def jsAdd : Option Int → Option Int → Option Int
  | some x, some y => some (x + y)
  | _, _ => none

/-- The success recording inlined in `main` (generate-commit.js,
lines 184-186): `usage.requests += 1; usage.tokens +=
result.response.tokens`.  `tokensUsed` is the value of
`result.response.tokens`, `none` when the upstream response carries no
such field (then the JavaScript addition yields `NaN`). -/
def recordSuccess (u : UsageRecord) (tokensUsed : Option Int) : UsageRecord :=
  { requests := u.requests + 1,
    tokens := jsAdd u.tokens tokensUsed,
    timestamp := u.timestamp }

/-- Outcome of one invocation of `main`, as far as the quota core is
concerned. -/
inductive RunOutcome where
  /-- `loadUsage` returned `undefined`; `resetUsageIfNeeded(usage)`
  dereferences `usage.timestamp` and throws a `TypeError`, aborting the
  run before any generation attempt. -/
  | crashTypeError
  /-- Admission denied: `process.exit(1)` at line 117, the generation
  collaborator is never invoked. -/
  | exitRateLimit
  /-- The generation collaborator was invoked and succeeded; the run
  continued past the post-success save to the interactive steps.
  Carries the final file state and whether the final save logged a
  write error. -/
  | generated (fs : FileState) (saveErrorLogged : Bool)
deriving DecidableEq, Repr

/-- Whether the generation collaborator was invoked on this outcome. -/
def RunOutcome.invokedGeneration : RunOutcome → Bool
  | RunOutcome.generated _ _ => true
  | _ => false

/-- The quota-relevant control flow of `main` (generate-commit.js,
lines 111-213): load, lazy reset (which saves, line 82), admission
check, then — only when admitted — generation, success recording and the
post-success save (line 186).  `writable` says whether writes to the
usage file succeed; `genTokens` is `result.response.tokens` of the
upstream response. -/
def mainRun (fs : FileState) (now : Int) (writable : Bool)
    (genTokens : Option Int) : RunOutcome :=
  match (loadUsage fs now).1 with
  | none => RunOutcome.crashTypeError
  | some usage =>
    let usage1 := resetUsageIfNeeded usage now
    let fs1 := (saveUsage usage1 writable fs).1
    match checkAdmission usage1 with
    | Admission.denied _ => RunOutcome.exitRateLimit
    | Admission.allowed =>
      let usage2 := recordSuccess usage1 genTokens
      let save2 := saveUsage usage2 writable fs1
      RunOutcome.generated save2.1 save2.2

theorem parseUsage_serializeUsage (u : UsageRecord) :
    parseUsage (serializeUsage u) = some u := by
  obtain ⟨r, t, ts⟩ := u
  cases t <;> rfl

theorem resetUsageIfNeeded_not_expired (u : UsageRecord) (now : Int)
    (h : now - u.timestamp ≤ oneDay) : resetUsageIfNeeded u now = u := by
  unfold resetUsageIfNeeded
  rw [if_neg]
  omega

theorem resetUsageIfNeeded_expired (u : UsageRecord) (now : Int)
    (h : now - u.timestamp > oneDay) :
    resetUsageIfNeeded u now =
      { requests := 0, tokens := u.tokens, timestamp := now } := by
  unfold resetUsageIfNeeded
  rw [if_pos h]

theorem not_expired_le (u : UsageRecord) (now : Int)
    (h : ¬ now - u.timestamp > oneDay) : now - u.timestamp ≤ oneDay :=
  not_lt.mp h

/-- C1: the admission check of `main` decides solely on the daily request
counter against RPD = 1500: any record with `requests >= 1500` is denied
with the daily-request-limit reason regardless of `tokens`, a record with
`requests == 1499` is allowed, and on the scenario record
`{requests: 1500, timestamp: now - 1000}` the whole run exits at the rate
limit, never invoking the generation collaborator. -/
theorem checkAdmission_daily_limit (u : UsageRecord) (now : Int)
    (w : Bool) (g : Option Int) :
    (RATE_LIMITS_RPD ≤ u.requests →
      checkAdmission u = Admission.denied DenialReason.dailyRequestLimitExceeded) ∧
    (u.requests = 1499 → checkAdmission u = Admission.allowed) ∧
    mainRun (FileState.stored (serializeUsage
        { requests := 1500, tokens := u.tokens, timestamp := now - 1000 })) now w g
      = RunOutcome.exitRateLimit := by
  refine ⟨?_, ?_, ?_⟩
  · intro h
    unfold checkAdmission
    rw [if_pos h]
  · intro h
    unfold checkAdmission
    rw [if_neg]
    rw [h]
    decide
  · simp only [mainRun, loadUsage, parseUsage_serializeUsage]
    rw [resetUsageIfNeeded_not_expired _ _ (by simp only [oneDay]; omega)]
    simp [checkAdmission, RATE_LIMITS_RPD]

theorem checkAdmission_daily_limit_witness :
    checkAdmission { requests := 1500, tokens := some 7, timestamp := 0 }
        = Admission.denied DenialReason.dailyRequestLimitExceeded ∧
    checkAdmission { requests := 1499, tokens := some 7, timestamp := 0 }
        = Admission.allowed :=
  ⟨(checkAdmission_daily_limit ⟨1500, some 7, 0⟩ 0 true none).1 (by decide),
   (checkAdmission_daily_limit ⟨1499, some 7, 0⟩ 0 true none).2.1 (by decide)⟩

/-- C2: `resetUsageIfNeeded` zeroes `requests` and moves `timestamp` to
`now` exactly when `now - timestamp` strictly exceeds 86 400 000 ms, and
returns the record unchanged in every field otherwise (in particular at
exactly 24 h). -/
theorem resetUsageIfNeeded_window (u : UsageRecord) (now : Int) :
    (now - u.timestamp > 86400000 →
      resetUsageIfNeeded u now
        = { requests := 0, tokens := u.tokens, timestamp := now }) ∧
    (now - u.timestamp ≤ 86400000 → resetUsageIfNeeded u now = u) := by
  constructor
  · intro h
    exact resetUsageIfNeeded_expired u now (by simp only [oneDay]; omega)
  · intro h
    exact resetUsageIfNeeded_not_expired u now (by simp only [oneDay]; omega)

theorem resetUsageIfNeeded_window_witness :
    resetUsageIfNeeded { requests := 7, tokens := some 5, timestamp := 0 } 86400001
        = { requests := 0, tokens := some 5, timestamp := 86400001 } ∧
    resetUsageIfNeeded { requests := 7, tokens := some 5, timestamp := 0 } 86400000
        = { requests := 7, tokens := some 5, timestamp := 0 } :=
  ⟨(resetUsageIfNeeded_window ⟨7, some 5, 0⟩ 86400001).1 (by decide),
   (resetUsageIfNeeded_window ⟨7, some 5, 0⟩ 86400000).2 (by decide)⟩

/-- C3 (code evaluated at the failing input): when the upstream response
carries no token count (`result.response.tokens` is `undefined`),
`recordSuccess` does NOT treat it as 0 — the JavaScript addition
`usage.tokens += undefined` produces `NaN` (modelled `none`), so the
resulting `tokens` is non-numeric rather than the unchanged count. -/
theorem recordSuccess_undefined_tokens :
    recordSuccess { requests := 0, tokens := some 0, timestamp := 1000 } none
        = { requests := 1, tokens := none, timestamp := 1000 } ∧
    (recordSuccess { requests := 0, tokens := some 0, timestamp := 1000 } none).tokens
        ≠ some 0 := by
  decide

/-- C4 (code evaluated at the failing input): on an unparseable usage
file, `loadUsage` does not signal any storage-read error — its `catch`
logs and returns `undefined` (`none`) — and the run then aborts with a
`TypeError` inside `resetUsageIfNeeded` before any generation attempt. -/
theorem loadUsage_corrupt_behavior (now : Int) (w : Bool) (g : Option Int) :
    (loadUsage FileState.corrupt now).1 = none ∧
    mainRun FileState.corrupt now w g = RunOutcome.crashTypeError ∧
    (mainRun FileState.corrupt now w g).invokedGeneration = false :=
  ⟨rfl, rfl, rfl⟩

/-- C5: `resetUsageIfNeeded` is idempotent — applying it twice with the
same `now` equals applying it once. -/
theorem resetUsageIfNeeded_idempotent (u : UsageRecord) (now : Int) :
    resetUsageIfNeeded (resetUsageIfNeeded u now) now
      = resetUsageIfNeeded u now := by
  by_cases h : now - u.timestamp > oneDay
  · rw [resetUsageIfNeeded_expired u now h]
    exact resetUsageIfNeeded_not_expired _ now (by simp [oneDay])
  · rw [resetUsageIfNeeded_not_expired u now (not_expired_le u now h),
        resetUsageIfNeeded_not_expired u now (not_expired_le u now h)]

/-- C6: the admission check never sees an expired window.  The record
that `main` passes to the admission check — the output of
`resetUsageIfNeeded` — always has `now - timestamp <= 24h`; whenever the
input window was expired, the check allows (requests were reset to 0)
regardless of the prior count; and on the scenario record
`{requests: 1500, timestamp: now - 90_000_000}` the run reaches the
generation collaborator. -/
theorem admission_checked_after_reset (u : UsageRecord) (now : Int)
    (w : Bool) (g tok : Option Int) :
    now - (resetUsageIfNeeded u now).timestamp ≤ 86400000 ∧
    (now - u.timestamp > 86400000 →
      checkAdmission (resetUsageIfNeeded u now) = Admission.allowed) ∧
    (mainRun (FileState.stored (serializeUsage
        { requests := 1500, tokens := tok, timestamp := now - 90000000 })) now w g
      ).invokedGeneration = true := by
  refine ⟨?_, ?_, ?_⟩
  · by_cases h : now - u.timestamp > oneDay
    · rw [resetUsageIfNeeded_expired u now h]
      simp
    · rw [resetUsageIfNeeded_not_expired u now (not_expired_le u now h)]
      simp only [oneDay] at h
      omega
  · intro h
    rw [resetUsageIfNeeded_expired u now (by simp only [oneDay]; omega)]
    simp [checkAdmission, RATE_LIMITS_RPD]
  · simp only [mainRun, loadUsage, parseUsage_serializeUsage]
    rw [resetUsageIfNeeded_expired _ _ (by simp only [oneDay]; omega)]
    simp [checkAdmission, RATE_LIMITS_RPD, saveUsage, RunOutcome.invokedGeneration]

theorem admission_checked_after_reset_witness :
    checkAdmission
        (resetUsageIfNeeded { requests := 1500, tokens := some 0, timestamp := 0 } 90000000)
      = Admission.allowed :=
  (admission_checked_after_reset ⟨1500, some 0, 0⟩ 90000000 true none none).2.1 (by decide)

/-- C7: round-trip persistence — a successful `saveUsage` of any record
followed by `loadUsage` returns exactly the record saved, equal in all
three fields. -/
theorem saveUsage_loadUsage_roundtrip (u : UsageRecord) (fs : FileState) (now : Int) :
    (loadUsage ((saveUsage u true fs).1) now).1 = some u := by
  simp [saveUsage, loadUsage, parseUsage_serializeUsage]

/-- C8: with no usage file, `loadUsage` returns the fresh record
`{requests: 0, tokens: 0, timestamp: now}` and leaves the file state
untouched (nothing is persisted by the load itself); in that fresh
environment one successful generation with 250 tokens ends with
`{requests: 1, tokens: 250, timestamp: now}` persisted. -/
theorem loadUsage_fresh (now : Int) :
    loadUsage FileState.absent now
      = (some { requests := 0, tokens := some 0, timestamp := now }, FileState.absent) ∧
    mainRun FileState.absent now true (some 250)
      = RunOutcome.generated
          (FileState.stored (serializeUsage
            { requests := 1, tokens := some 250, timestamp := now })) false := by
  constructor
  · rfl
  · simp only [mainRun, loadUsage]
    rw [resetUsageIfNeeded_not_expired _ _ (by simp only [oneDay]; omega)]
    simp [checkAdmission, RATE_LIMITS_RPD, recordSuccess, jsAdd, saveUsage]

/-- C9: `resetUsageIfNeeded` touches only `requests` and `timestamp`;
in particular `tokens` is preserved on both branches — it is never
reset. -/
theorem resetUsageIfNeeded_preserves_tokens (u : UsageRecord) (now : Int) :
    (resetUsageIfNeeded u now).tokens = u.tokens := by
  unfold resetUsageIfNeeded
  split <;> rfl

/-- C10: a failed save is logged and swallowed — `saveUsage` on an
unwritable medium returns normally with the file unchanged and the error
flagged as logged, and a run whose generation already succeeded still
completes (outcome `generated`) even though every save fails; the
failure never propagates to the caller. -/
theorem saveUsage_failure_nonfatal (u : UsageRecord) (fs : FileState) (now : Int)
    (g : Option Int) :
    saveUsage u false fs = (fs, true) ∧
    (now - u.timestamp ≤ 86400000 → u.requests < 1500 →
      mainRun (FileState.stored (serializeUsage u)) now false g
        = RunOutcome.generated (FileState.stored (serializeUsage u)) true) := by
  constructor
  · rfl
  · intro h1 h2
    have hadm : checkAdmission u = Admission.allowed := by
      unfold checkAdmission
      rw [if_neg]
      simp only [RATE_LIMITS_RPD]
      omega
    simp only [mainRun, loadUsage, parseUsage_serializeUsage]
    rw [resetUsageIfNeeded_not_expired u now (by simp only [oneDay]; omega)]
    simp [hadm, saveUsage]

theorem saveUsage_failure_nonfatal_witness :
    saveUsage { requests := 3, tokens := some 10, timestamp := 0 } false FileState.absent
        = (FileState.absent, true) ∧
    mainRun (FileState.stored (serializeUsage
        { requests := 3, tokens := some 10, timestamp := 0 })) 1000 false (some 5)
      = RunOutcome.generated
          (FileState.stored (serializeUsage
            { requests := 3, tokens := some 10, timestamp := 0 })) true :=
  ⟨(saveUsage_failure_nonfatal ⟨3, some 10, 0⟩ FileState.absent 1000 (some 5)).1,
   (saveUsage_failure_nonfatal ⟨3, some 10, 0⟩ FileState.absent 1000 (some 5)).2
     (by decide) (by decide)⟩
